import Mathlib

/-!
Verification of the Lane County GIS parcel application (src/script.js and
its near-duplicate variant src/unnamed/part_000).

The development shallowly embeds the data-resolution pipeline of the
application: the field resolver `getField`, the record normalizer
`normalizeParcel`, the placeholder constructors `buildNAProperty` and
`buildReverseGeocodeProperty`, the taxlot endpoint sequencer
`tryIdentifyFromTaxlots`, the reverse geocoder `tryReverseGeocode`, the
orchestrating pipeline `identifyParcelAt`, the address search
`searchAddresses`, and the saved-list operations `isCurrentSaved` /
`saveCurrentProperty`.

JavaScript scalar values appearing in attribute bags are modelled by the
inductive type `Value` (null, string, or number); numbers are modelled as
rationals (a JS number that is an exact decimal is represented by that
decimal).  Network effects are modelled by passing the outcome of each
fetch as an explicit argument.
-/

set_option maxHeartbeats 1000000

namespace LCG

/-- A JavaScript scalar value as it occurs in an attribute bag:
`null`, a string, or a number (modelled as a rational). -/
inductive Value where
  | null : Value
  | str : String → Value
  | num : Rat → Value
  deriving Repr, DecidableEq

/-- An attribute bag: a JS object, modelled as an association list in
property-insertion order (`Object.keys` iteration order for the
non-integer-like keys used by the GIS services). -/
abbrev Bag := List (String × Value)

/-- `attrs[key]` on a JS object: the value at `key`, or `undefined`
(`none`) when the key is absent.  (A real JS object has distinct keys, so
taking the first entry is exact.) -/
def bagGet : Bag → String → Option Value
  | [], _ => none
  | (k, v) :: rest, key => if k = key then some v else bagGet rest key

/-- JS truthiness of a `Value` (`Boolean(v)`): `null`, the empty string
and the number 0 are falsy; everything else in our model is truthy. -/
def truthy : Value → Bool
  | .null => false
  | .str s => s ≠ ""
  | .num q => q ≠ 0

/-- The usability test of `getField`:
`v !== undefined && v !== null && v !== ''` (on a present value). -/
def usable : Value → Bool
  | .null => false
  | .str s => s ≠ ""
  | .num _ => true

/-- JS `toLowerCase()` on the ASCII field names and key strings this
application uses, structurally recursive so that concrete instances
compute. -/
def lowerStr (s : String) : String := String.mk (s.toList.map Char.toLower)

/-- The inner loop of `getField`: scan the bag entries in `Object.keys`
order for a key whose lower-casing is `lower` and whose value passes the
usability test; return the first such value. -/
def ciScan : Bag → String → Option Value
  | [], _ => none
  | (actual, val) :: rest, lower =>
    if lowerStr actual = lower ∧ usable val = true then some val
    else ciScan rest lower

/-- `getField(attrs, keys, fallback)` from src/script.js:1834-1848 (and
identically src/unnamed/part_000:252-266).  For each candidate key in
order: if the exact key is present with a usable value, return it;
otherwise scan the whole bag for a case-insensitive match with a usable
value; otherwise move to the next candidate.  If no candidate resolves,
return the fallback. -/
def getField (attrs : Bag) (keys : List String) (fallback : Value) : Value :=
  match keys with
  | [] => fallback
  | key :: rest =>
    match bagGet attrs key with
    | some v =>
      if usable v then v
      else
        match ciScan attrs (lowerStr key) with
        | some w => w
        | none => getField attrs rest fallback
    | none =>
      match ciScan attrs (lowerStr key) with
      | some w => w
      | none => getField attrs rest fallback

/-- `getField` without its fallback: `some v` when some candidate
resolves to the usable value `v`, `none` when the loop exhausts.  Used to
state claims about "no candidate resolves". -/
def resolves (attrs : Bag) (keys : List String) : Option Value :=
  match keys with
  | [] => none
  | key :: rest =>
    match bagGet attrs key with
    | some v =>
      if usable v then some v
      else
        match ciScan attrs (lowerStr key) with
        | some w => some w
        | none => resolves attrs rest
    | none =>
      match ciScan attrs (lowerStr key) with
      | some w => some w
      | none => resolves attrs rest

theorem getField_eq_resolves (attrs : Bag) (keys : List String) (fallback : Value) :
    getField attrs keys fallback = (resolves attrs keys).getD fallback := by
  induction keys with
  | nil => rfl
  | cons key rest ih =>
    simp only [getField, resolves]
    cases bagGet attrs key with
    | none => cases ciScan attrs (lowerStr key) <;> simp [ih]
    | some v =>
      by_cases hv : usable v
      · simp [hv]
      · simp only [hv, if_neg, Bool.false_eq_true, if_false]
        cases ciScan attrs (lowerStr key) <;> simp [ih]

/-- Fixed-point digit rendering: the decimal digits of `n`, left-padded
with zeroes to at least `f + 1` digits, with a decimal point inserted
before the last `f` digits (no point when `f = 0`). -/
def fixedDigits (f : Nat) (n : Nat) : String :=
  let ds := (Nat.repr n).toList
  let ds := List.replicate (f + 1 - ds.length) '0' ++ ds
  if f = 0 then String.mk ds
  else String.mk (ds.take (ds.length - f)) ++ "." ++ String.mk (ds.drop (ds.length - f))

/-- ECMAScript `x.toFixed(f)` on an exact rational: the sign of `x`,
then `|x| * 10^f` rounded half-up to an integer
(`(2 * |num| * 10^f + den) / (2 * den)` in integer arithmetic), printed
with `f` decimals. -/
def ratToFixed (f : Nat) (q : Rat) : String :=
  let sign := if q.num < 0 then "-" else ""
  let scaled : Nat := (2 * q.num.natAbs * 10 ^ f + q.den) / (2 * q.den)
  sign ++ fixedDigits f scaled

/-- The smallest `k ≤ 30` with `den ∣ 10 ^ k`, if any. -/
def decExponent (den : Nat) : Option Nat :=
  (List.range 31).find? fun k => den ∣ 10 ^ k

/-- JS `String(n)` / template-literal coercion of a number, modelled for
numbers with a terminating decimal expansion (every double that is an
exact short decimal prints exactly that decimal; other rationals do not
arise in this application and get a fraction rendering). -/
def jsNumToString (q : Rat) : String :=
  let sign := if q.num < 0 then "-" else ""
  match decExponent q.den with
  | some k => sign ++ fixedDigits k (q.num.natAbs * (10 ^ k / q.den))
  | none => sign ++ Nat.repr q.num.natAbs ++ "/" ++ Nat.repr q.den

/-- The natural number denoted by a list of decimal digit characters. -/
def digitsVal (cs : List Char) : Nat :=
  cs.foldl (fun n c => n * 10 + (c.toNat - 48)) 0

/-- JS `Number(s)` on a string, modelled for plain decimal literals:
a whitespace-only string is 0; an optional sign followed by digits with
an optional decimal point denotes that decimal; anything else is NaN
(`none`).  (Exponent/hex forms do not occur in this application.) -/
def isSpaceChar (c : Char) : Bool := c = ' ' || c = '\t' || c = '\n' || c = '\r'

/-- Split a character list at the `'.'` separators. -/
def splitDot : List Char → List (List Char)
  | [] => [[]]
  | c :: rest =>
    if c = '.' then [] :: splitDot rest
    else
      match splitDot rest with
      | [] => [[c]]
      | p :: ps => (c :: p) :: ps

def parseJsNumber (s : String) : Option Rat :=
  let t := (((s.toList.dropWhile isSpaceChar).reverse.dropWhile isSpaceChar).reverse)
  if t = [] then some 0
  else
    let (sign, body) : Int × List Char :=
      match t with
      | '-' :: rest => (-1, rest)
      | '+' :: rest => (1, rest)
      | _ => (1, t)
    match splitDot body with
    | [ip] =>
      if ip ≠ [] ∧ ip.all Char.isDigit then
        some (Rat.divInt (sign * (digitsVal ip : Int)) 1)
      else none
    | [ip, fp] =>
      if (ip ≠ [] ∨ fp ≠ []) ∧ ip.all Char.isDigit ∧ fp.all Char.isDigit then
        some (Rat.divInt
          (sign * ((digitsVal ip : Int) * 10 ^ fp.length + (digitsVal fp : Int)))
          (10 ^ fp.length))
      else none
    | _ => none

/-- JS `Number(v)` coercion of a bag value; `none` models NaN. -/
def jsNum : Value → Option Rat
  | .null => some 0
  | .num q => some q
  | .str s => parseJsNumber s

/-- `Number(v).toFixed(f)`: "NaN" when the coercion is NaN. -/
def jsToFixed (f : Nat) (v : Value) : String :=
  match jsNum v with
  | some q => ratToFixed f q
  | none => "NaN"

/-- Template-literal / `String()` coercion of a bag value. -/
def jsToString : Value → String
  | .null => "null"
  | .str s => s
  | .num q => jsNumToString q

/-- `v || d` used inside a template literal: the string of `v` when `v`
is truthy, else the default `d`. -/
def jsOrStr (v : Value) (d : String) : String :=
  if truthy v then jsToString v else d

/- The `FIELD_MAP` constant of src/script.js:1639-1663: candidate source
field names per canonical concept, in precedence order. -/
namespace FIELD_MAP

def owner : List String :=
  ["OWNER1", "OWNER", "OWNER_NAME", "NAME", "GRANTEE", "OWNNAME", "ownname"]

def situs : List String :=
  ["SITUS_ADDR", "SITEADDR", "SITUS", "ADDRESS", "PROP_ADDR", "ADDR1", "addr1"]

def city : List String := ["SITUS_CITY", "CITY"]

def state : List String := ["SITUS_STATE", "STATE"]

def zip : List String := ["SITUS_ZIP", "ZIP", "ZIPCODE"]

def assessed : List String := ["TOTALVALUE", "TOTAL_VALUE", "ASSESSED", "ASSESSED_VALUE"]

def land : List String := ["LANDVALUE", "LAND_VALUE"]

def improv : List String := ["IMPVALUE", "IMP_VALUE", "IMPR_VALUE"]

def acres : List String := ["ACRES", "ACREAGE"]

def zoning : List String := ["ZONING", "ZONE"]

def yearBuilt : List String := ["YEARBUILT", "YEAR_BUILT"]

def parcelId : List String :=
  ["TAXLOT", "PARCEL", "PARCEL_ID", "ACCTNO", "acctno", "MAPLOT", "maplot"]

def taxLot : List String := ["MAPTAXLOT", "MAP_TAXLOT", "TAXLOT", "MAPLOT", "maplot"]

def propType : List String := ["PROPCLASS", "PROP_CLASS", "PROPERTY_CLASS"]

def township : List String := ["TOWNSHIP", "TWP"]

def range : List String := ["RANGE", "RNG"]

def «section» : List String := ["SECTION", "SEC"]

end FIELD_MAP

/-- The canonical normalized Property record returned by
`normalizeParcel` and the two placeholder constructors.  Bag-derived
fields keep the JS `Value` type; derived display strings are `String`;
`savedAt` is `none` until the property is saved (`savedAt: null`);
`rawAttrs` models the `_rawAttrs` diagnostic field. -/
structure Property where
  uniqueKey : String
  owner : Value
  situs : Value
  city : Value
  state : Value
  zip : Value
  fullAddress : String
  assessed : Value
  land : Value
  improv : Value
  acres : Value
  lotSizeLabel : String
  zoning : Value
  yearBuilt : Value
  parcelId : Value
  taxLot : Value
  propType : Value
  township : Value
  range : Value
  «section» : Value
  trs : String
  savedAt : Option String
  rawAttrs : Bag
  deriving Repr, DecidableEq

/-- The full-address derivation of `normalizeParcel`
(src/script.js:1869-1873): situs, then `"city, state"` filtered to the
truthy parts, then zip when truthy, joined by `" | "`. -/
def fullAddressOf (situs city state zip : Value) : String :=
  let cityState := String.intercalate ", " (([city, state].filter truthy).map jsToString)
  String.intercalate " | "
    ([jsToString situs]
      ++ (if cityState ≠ "" then [cityState] else [])
      ++ (if truthy zip then [jsToString zip] else []))

/-- `normalizeParcel(attrs)` from src/script.js:1850-1907 (identical in
src/unnamed/part_000:268-325). -/
def normalizeParcel (attrs : Bag) : Property :=
  let owner := getField attrs FIELD_MAP.owner (.str "Unknown Owner")
  let situs := getField attrs FIELD_MAP.situs (.str "Address not available")
  let city := getField attrs FIELD_MAP.city (.str "")
  let state := getField attrs FIELD_MAP.state (.str "OR")
  let zip := getField attrs FIELD_MAP.zip (.str "")
  let assessed := getField attrs FIELD_MAP.assessed .null
  let land := getField attrs FIELD_MAP.land .null
  let improv := getField attrs FIELD_MAP.improv .null
  let acres := getField attrs FIELD_MAP.acres .null
  let zoning := getField attrs FIELD_MAP.zoning (.str "N/A")
  let yearBuilt := getField attrs FIELD_MAP.yearBuilt (.str "N/A")
  let parcelId := getField attrs FIELD_MAP.parcelId (.str "N/A")
  let taxLot := getField attrs FIELD_MAP.taxLot parcelId
  let propType := getField attrs FIELD_MAP.propType (.str "N/A")
  let township := getField attrs FIELD_MAP.township (.str "")
  let rangeVal := getField attrs FIELD_MAP.range (.str "")
  let sectionVal := getField attrs FIELD_MAP.«section» (.str "")
  let fullAddress := fullAddressOf situs city state zip
  let lotSizeLabel := if truthy acres then jsToFixed 2 acres ++ " ac" else "N/A"
  let trs :=
    if truthy township || truthy rangeVal || truthy sectionVal then
      "T" ++ jsOrStr township "?" ++ " R" ++ jsOrStr rangeVal "?"
        ++ " S" ++ jsOrStr sectionVal "?"
    else "N/A"
  let uniqueKey :=
    lowerStr (jsToString parcelId ++ "|" ++ jsToString situs ++ "|" ++ jsToString owner)
  { uniqueKey := uniqueKey
    owner := owner
    situs := situs
    city := city
    state := state
    zip := zip
    fullAddress := fullAddress
    assessed := assessed
    land := land
    improv := improv
    acres := acres
    lotSizeLabel := lotSizeLabel
    zoning := zoning
    yearBuilt := yearBuilt
    parcelId := parcelId
    taxLot := taxLot
    propType := propType
    township := township
    range := rangeVal
    «section» := sectionVal
    trs := trs
    savedAt := none
    rawAttrs := attrs }

/-- `buildNAProperty(lat, lng)` from src/script.js:1909-1936: the
bare-coordinate placeholder Property. -/
def buildNAProperty (lat lng : Rat) : Property :=
  let coordLabel := ratToFixed 6 lat ++ ", " ++ ratToFixed 6 lng
  { uniqueKey := "na|" ++ coordLabel
    owner := .str "Owner not available"
    situs := .str "Location in Lane County"
    city := .str ""
    state := .str "OR"
    zip := .str ""
    fullAddress := "Coordinates: " ++ coordLabel
    assessed := .null
    land := .null
    improv := .null
    acres := .null
    lotSizeLabel := "N/A"
    zoning := .str "N/A"
    yearBuilt := .str "N/A"
    parcelId := .str "N/A"
    taxLot := .str "N/A"
    propType := .str "N/A"
    township := .str ""
    range := .str ""
    «section» := .str ""
    trs := "N/A"
    savedAt := none
    rawAttrs := [] }

/-- The `address` object of a reverse-geocode response (fields
`Address`, `Match_addr`, `City`, `Region`, `Postal`; absent fields are
`none`). -/
structure GeoAddress where
  Address : Option String
  Match_addr : Option String
  City : Option String
  Region : Option String
  Postal : Option String
  deriving Repr, DecidableEq

/-- `a || d` on an optional string field: the default when the field is
absent or the empty string (both falsy in JS). -/
def strOr (a : Option String) (d : String) : String :=
  match a with
  | some s => if s = "" then d else s
  | none => d

/-- `buildReverseGeocodeProperty(lat, lng, addressObj)` from
src/script.js:1938-1976. -/
def buildReverseGeocodeProperty (lat lng : Rat) (addressObj : Option GeoAddress) : Property :=
  let addr := addressObj.getD ⟨none, none, none, none, none⟩
  let situs := strOr addr.Address (strOr addr.Match_addr "Address not available")
  let city := strOr addr.City ""
  let state := strOr addr.Region "OR"
  let zip := strOr addr.Postal ""
  let fullAddress := fullAddressOf (.str situs) (.str city) (.str state) (.str zip)
  { uniqueKey := "revgeo|" ++ situs ++ "|" ++ ratToFixed 6 lat ++ "," ++ ratToFixed 6 lng
    owner := .str "Owner not available"
    situs := .str situs
    city := .str city
    state := .str state
    zip := .str zip
    fullAddress := fullAddress
    assessed := .null
    land := .null
    improv := .null
    acres := .null
    lotSizeLabel := "N/A"
    zoning := .str "N/A"
    yearBuilt := .str "N/A"
    parcelId := .str "N/A"
    taxLot := .str "N/A"
    propType := .str "N/A"
    township := .str ""
    range := .str ""
    «section» := .str ""
    trs := "N/A"
    savedAt := none
    rawAttrs := [] }

/- Configured endpoints, src/script.js:1598-1636.  The Eugene and
statewide taxlot URLs and the Oregon geocoder URL are empty strings in
the shipped configuration. -/

def LANE_TAXLOTS_URL : String :=
  "https://gis.lanecounty.org/arcgis/rest/services/LaneCounty/Taxlots/MapServer/0"

def EUGENE_TAXLOTS_URL : String := ""

def STATEWIDE_TAXLOTS_URL : String := ""

/-- `TAXLOT_ENDPOINTS`: the ordered parcel services, with the unset
(empty-string, hence falsy) entries removed by `.filter(Boolean)`. -/
def TAXLOT_ENDPOINTS : List String :=
  [LANE_TAXLOTS_URL, EUGENE_TAXLOTS_URL, STATEWIDE_TAXLOTS_URL].filter (fun s => s ≠ "")

def ESRI_GEOCODE_URL : String :=
  "https://geocode.arcgis.com/arcgis/rest/services/World/GeocodeServer"

def OREGON_GEOCODE_URL : String := ""

/-- ArcGIS polygon geometry as consumed by the pipeline: an optional
`rings` array of rings, each ring a list of `[x, y]` pairs. -/
structure Geometry where
  rings : Option (List (List (Rat × Rat)))
  deriving Repr, DecidableEq

/-- One entry of the `features` array of a taxlot query response. -/
structure Feature where
  attributes : Option Bag
  properties : Option Bag
  geometry : Option Geometry
  deriving Repr, DecidableEq

/-- The parsed JSON body of a taxlot query response; `features` is
`none` when the body has no `features` array. -/
structure QueryResponse where
  features : Option (List Feature)
  deriving Repr, DecidableEq

/-- The observable outcome of one `fetchWithTimeout` + `res.json()`
round trip: either a raised error (`isAbort` models
`err.name === 'AbortError'`; `message` models `err.message`, with `""`
for an absent message; a failing body parse is also of this form), or an
HTTP response with its status and parsed body.  The CORS-proxy wrapping
inside `fetchWithTimeout` is part of this abstracted fetch. -/
inductive FetchOutcome where
  | thrown (isAbort : Bool) (message : String)
  | http (status : Nat) (body : QueryResponse)
  deriving Repr, DecidableEq

/-- `res.ok`: status in the 200-299 range. -/
def httpOk (status : Nat) : Bool := 200 ≤ status && status < 300

/-- The reason string built by the catch block of
`tryIdentifyFromTaxlots`:
`err.name === 'AbortError' ? 'timeout' : (err.message || 'network error')`. -/
def throwReason (isAbort : Bool) (message : String) : String :=
  if isAbort then "timeout" else if message = "" then "network error" else message

/-- The serialized `URLSearchParams` of the taxlot query
(src/script.js:2045-2053); the comma inside `geometry` is
percent-encoded by the serializer. -/
def taxlotQueryString (lat lng : Rat) : String :=
  "f=json&geometry=" ++ jsNumToString lng ++ "%2C" ++ jsNumToString lat
    ++ "&geometryType=esriGeometryPoint&inSR=4326&spatialRel=esriSpatialRelIntersects&outFields=*&returnGeometry=true"

/-- The per-endpoint request URL `` `${endpoint}/query?${params}` ``. -/
def taxlotUrl (endpoint qs : String) : String := endpoint ++ "/query?" ++ qs

/-- The value a successful taxlot attempt returns:
`{ property, geometry }`. -/
structure TaxlotResult where
  property : Property
  geometry : Option Geometry
  deriving Repr, DecidableEq

/-- What one run of the endpoint loop of `tryIdentifyFromTaxlots`
produces: the first success (if any), the accumulated
`"<endpoint>: <reason>"` strings of the failed attempts, and the
endpoints for which the loop body actually ran, in order. -/
structure SeqOutcome where
  result : Option TaxlotResult
  errors : List String
  attempted : List String
  deriving Repr, DecidableEq

/-- The endpoint loop of `tryIdentifyFromTaxlots`
(src/script.js:2057-2081), generic in the endpoint list: try each
endpoint in order; a thrown fetch, a non-success status, and an
empty/absent `features` array each record a reason and continue; the
first response with a feature is normalized and returned at once. -/
def taxlotLoop (fetch : String → FetchOutcome) (qs : String) : List String → SeqOutcome
  | [] => ⟨none, [], []⟩
  | endpoint :: rest =>
    match fetch (taxlotUrl endpoint qs) with
    | .thrown isAbort msg =>
      let r := taxlotLoop fetch qs rest
      ⟨r.result, (endpoint ++ ": " ++ throwReason isAbort msg) :: r.errors,
        endpoint :: r.attempted⟩
    | .http status body =>
      if httpOk status then
        match body.features with
        | some (feat :: _) =>
          let attrs := (feat.attributes.orElse fun _ => feat.properties).getD []
          ⟨some ⟨normalizeParcel attrs, feat.geometry⟩, [], [endpoint]⟩
        | _ =>
          let r := taxlotLoop fetch qs rest
          ⟨r.result, (endpoint ++ ": no features at this location") :: r.errors,
            endpoint :: r.attempted⟩
      else
        let r := taxlotLoop fetch qs rest
        ⟨r.result, (endpoint ++ ": HTTP " ++ Nat.repr status) :: r.errors,
          endpoint :: r.attempted⟩

/-- `tryIdentifyFromTaxlots(lat, lng)` from src/script.js:2044-2087: the
endpoint loop over the configured `TAXLOT_ENDPOINTS`. -/
def tryIdentifyFromTaxlots (fetch : String → FetchOutcome) (lat lng : Rat) : SeqOutcome :=
  taxlotLoop fetch (taxlotQueryString lat lng) TAXLOT_ENDPOINTS

/-- A fetch outcome on which a taxlot attempt fails: it throws, has a
non-success status, or carries no feature. -/
def attemptFails : FetchOutcome → Bool
  | .thrown _ _ => true
  | .http status body =>
    !httpOk status ||
      (match body.features with
       | some (_ :: _) => false
       | _ => true)

/-- The `"<endpoint>: <reason>"` string a failing attempt records. -/
def attemptReason (endpoint : String) : FetchOutcome → String
  | .thrown isAbort msg => endpoint ++ ": " ++ throwReason isAbort msg
  | .http status _ =>
    if httpOk status then endpoint ++ ": no features at this location"
    else endpoint ++ ": HTTP " ++ Nat.repr status

/-- A reverse-geocode fetch outcome: thrown, or an HTTP response whose
parsed body optionally carries an `address` object. -/
inductive RevOutcome where
  | thrown (isAbort : Bool) (message : String)
  | http (status : Nat) (address : Option GeoAddress)
  deriving Repr, DecidableEq

/-- The environment of `tryReverseGeocode`: the Esri request outcome
and, when `OREGON_GEOCODE_URL` is configured nonempty, the Oregon
request outcome. -/
structure RevEnv where
  esri : RevOutcome
  oregonConfigured : Bool
  oregon : RevOutcome
  deriving Repr, DecidableEq

/-- The geocoder catch-block reason:
`err.name === 'AbortError' ? 'timeout' : err.message` (no
`'network error'` default here, unlike the taxlot loop). -/
def revThrowReason (isAbort : Bool) (message : String) : String :=
  if isAbort then "timeout" else message

/-- The optional Oregon-fallback block of `tryReverseGeocode`
(src/script.js:2116-2131), reached when the Esri step produced no
Property; `errs` are the reasons accumulated so far. -/
def reverseOregon (env : RevEnv) (lat lng : Rat) (errs : List String) :
    Option Property × List String :=
  if env.oregonConfigured then
    match env.oregon with
    | .thrown isAbort msg =>
      (none, errs ++ ["Oregon reverse: " ++ revThrowReason isAbort msg])
    | .http status address =>
      if httpOk status then
        match address with
        | some addr => (some (buildReverseGeocodeProperty lat lng (some addr)), errs)
        | none => (none, errs ++ ["Oregon reverse: no address in response"])
      else (none, errs ++ ["Oregon reverse: HTTP " ++ Nat.repr status])
  else (none, errs)

/-- `tryReverseGeocode(lat, lng)` from src/script.js:2089-2135: Esri
primary, then the optional Oregon fallback; returns the Property (if
any) and the accumulated diagnostic reasons. -/
def tryReverseGeocode (env : RevEnv) (lat lng : Rat) : Option Property × List String :=
  match env.esri with
  | .thrown isAbort msg =>
    reverseOregon env lat lng ["Esri reverse: " ++ revThrowReason isAbort msg]
  | .http status address =>
    if httpOk status then
      match address with
      | some addr => (some (buildReverseGeocodeProperty lat lng (some addr)), [])
      | none => reverseOregon env lat lng ["Esri reverse: no address in response"]
    else reverseOregon env lat lng ["Esri reverse: HTTP " ++ Nat.repr status]

/-- The geometry-highlight computation of `identifyParcelAt`
(src/script.js:2020-2029): when a geometry with a `rings` field is
present, the first ring's `[x, y]` pairs are swapped to `[y, x]`
(latitude first).  In JS an empty `rings` array passes the truthiness
test, `rings[0]` is then `undefined`, and the `.map` call raises an
uncaught TypeError; the model surfaces that as an error. -/
def highlightCoords (geometry : Option Geometry) : Except String (Option (List (Rat × Rat))) :=
  match geometry with
  | none => .ok none
  | some g =>
    match g.rings with
    | none => .ok none
    | some [] => .error "TypeError: Cannot read properties of undefined (reading 'map')"
    | some (ring :: _) => .ok (some (ring.map fun xy => (xy.2, xy.1)))

/-- What `identifyParcelAt` leaves observable: the Property placed into
`AppState.currentProperty` and displayed, whether a fallback strategy
was used (the degraded-data toast), and the highlight polygon
coordinates (if any). -/
structure IdentifyView where
  property : Property
  usedFallback : Bool
  highlight : Option (List (Rat × Rat))
  deriving Repr, DecidableEq

/-- `identifyParcelAt(lat, lng)` from src/script.js:1982-2042: taxlot
strategy, then reverse-geocode strategy, then the bare-coordinate
placeholder; geometry highlighting happens only on taxlot success.  The
`Except` error is the uncaught TypeError of the empty-`rings` highlight
path; every other path produces a view. -/
def identifyParcelAt (fetch : String → FetchOutcome) (rev : RevEnv) (lat lng : Rat) :
    Except String IdentifyView :=
  match (tryIdentifyFromTaxlots fetch lat lng).result with
  | some r =>
    match highlightCoords r.geometry with
    | .error e => .error e
    | .ok coords => .ok ⟨r.property, false, coords⟩
  | none =>
    match (tryReverseGeocode rev lat lng).1 with
    | some p => .ok ⟨p, true, none⟩
    | none => .ok ⟨buildNAProperty lat lng, true, none⟩

/-- The `location` object of a raw geocoder candidate. -/
structure CandLocation where
  x : Rat
  y : Rat
  deriving Repr, DecidableEq

/-- One entry of the `candidates` array of a geocoder response. -/
structure RawCandidate where
  address : String
  score : Rat
  location : CandLocation
  deriving Repr, DecidableEq

/-- A normalized search candidate
`{ address, score, location: { lat, lng } }`. -/
structure Candidate where
  address : String
  score : Rat
  lat : Rat
  lng : Rat
  deriving Repr, DecidableEq

/-- A `findAddressCandidates` fetch outcome; `candidates` is `none` when
the body lacks the array (the code defaults it to `[]`). -/
inductive GeoOutcome where
  | thrown (isAbort : Bool) (message : String)
  | http (status : Nat) (candidates : Option (List RawCandidate))
  deriving Repr, DecidableEq

/-- `normalizeCandidates` from src/script.js:2314-2319. -/
def normalizeCandidates (candidates : Option (List RawCandidate)) : List Candidate :=
  (candidates.getD []).map fun c => ⟨c.address, c.score, c.location.y, c.location.x⟩

/-- The environment of `searchAddresses`: the Esri geocoder outcome and,
when `OREGON_GEOCODE_URL` is configured nonempty, the Oregon one. -/
structure SearchEnv where
  esri : GeoOutcome
  oregonConfigured : Bool
  oregon : GeoOutcome
  deriving Repr, DecidableEq

/-- The optional Oregon-geocoder block of `searchAddresses`
(src/script.js:2339-2355), reached when the Esri step yielded no
candidates; `errs` are the reasons accumulated so far. -/
def searchOregon (env : SearchEnv) (errs : List String) : List Candidate × List String :=
  if env.oregonConfigured then
    match env.oregon with
    | .thrown isAbort msg =>
      ([], errs ++ ["Oregon geocoder: " ++ revThrowReason isAbort msg])
    | .http status candidates =>
      if httpOk status then
        match normalizeCandidates candidates with
        | [] => ([], errs ++ ["Oregon geocoder: no candidates"])
        | c :: cs => (c :: cs, errs)
      else ([], errs ++ ["Oregon geocoder: HTTP " ++ Nat.repr status])
  else ([], errs)

/-- `searchAddresses(query)` from src/script.js:2302-2358: Esri geocoder
first, then the optional Oregon geocoder; the first non-empty normalized
candidate list is returned at once; when everything fails or is empty
the function returns `[]` together with the diagnostic reasons. -/
def searchAddresses (env : SearchEnv) : List Candidate × List String :=
  match env.esri with
  | .thrown isAbort msg =>
    searchOregon env ["Esri geocoder: " ++ revThrowReason isAbort msg]
  | .http status candidates =>
    if httpOk status then
      match normalizeCandidates candidates with
      | [] => searchOregon env ["Esri geocoder: no candidates"]
      | c :: cs => (c :: cs, [])
    else searchOregon env ["Esri geocoder: HTTP " ++ Nat.repr status]

/-- One element of the persisted saved list: the spread
`{...p, id: Date.now(), savedAt: <ISO timestamp>}`, i.e. the Property
with its `savedAt` stamped, plus the assigned `id`. -/
structure SavedItem where
  property : Property
  id : Nat
  deriving Repr, DecidableEq

/-- `isCurrentSaved()` from src/script.js:2430-2434: is some saved entry
carrying the current property's uniqueness key? -/
def isCurrentSaved (current : Option Property) (saved : List SavedItem) : Bool :=
  match current with
  | none => false
  | some p => saved.any fun q => q.property.uniqueKey = p.uniqueKey

/-- What one call of `saveCurrentProperty` leaves observable: the saved
collection afterwards, the toast, and whether `localStorage.setItem` ran. -/
structure SaveOutcome where
  saved : List SavedItem
  toastMsg : String
  toastKind : String
  wroteStorage : Bool
  deriving Repr, DecidableEq

/-- `saveCurrentProperty()` from src/script.js:2453-2478: no selection
and an already-saved key are rejected with an error toast and no state
change; otherwise the stamped property is appended and persisted.
`now` models `Date.now()` and `iso` the ISO save timestamp. -/
def saveCurrentProperty (current : Option Property) (saved : List SavedItem)
    (now : Nat) (iso : String) : SaveOutcome :=
  match current with
  | none => ⟨saved, "No property selected", "error", false⟩
  | some p =>
    if isCurrentSaved (some p) saved then
      ⟨saved, "Property already in your list", "error", false⟩
    else
      ⟨saved ++ [⟨{ p with savedAt := some iso }, now⟩], "Property saved", "success", true⟩

/-!
Helper lemmas about the field resolver.
-/

theorem bagGet_mem {attrs : Bag} {key : String} {v : Value}
    (h : bagGet attrs key = some v) : (key, v) ∈ attrs := by
  induction attrs with
  | nil => simp [bagGet] at h
  | cons kv rest ih =>
    obtain ⟨k, w⟩ := kv
    simp only [bagGet] at h
    by_cases hk : k = key
    · subst hk
      rw [if_pos rfl] at h
      injection h with h
      subst h
      exact List.mem_cons_self _ _
    · rw [if_neg hk] at h
      exact List.mem_cons_of_mem _ (ih h)

theorem ciScan_mem {attrs : Bag} {lower : String} {w : Value}
    (h : ciScan attrs lower = some w) :
    ∃ kv, kv ∈ attrs ∧ lowerStr kv.1 = lower ∧ kv.2 = w ∧ usable w = true := by
  induction attrs with
  | nil => simp [ciScan] at h
  | cons hd rest ih =>
    obtain ⟨k, v⟩ := hd
    simp only [ciScan] at h
    by_cases hc : lowerStr k = lower ∧ usable v = true
    · rw [if_pos hc, Option.some.injEq] at h
      subst h
      exact ⟨(k, v), List.mem_cons_self _ _, hc.1, rfl, hc.2⟩
    · rw [if_neg hc] at h
      obtain ⟨kv, hmem, h1, h2, h3⟩ := ih h
      exact ⟨kv, List.mem_cons_of_mem _ hmem, h1, h2, h3⟩

theorem ciScan_isSome_of_mem {attrs : Bag} {lower : String} {kv : String × Value}
    (hmem : kv ∈ attrs) (hl : lowerStr kv.1 = lower) (hu : usable kv.2 = true) :
    ∃ w, ciScan attrs lower = some w := by
  induction attrs with
  | nil => cases hmem
  | cons hd rest ih =>
    obtain ⟨k, v⟩ := hd
    by_cases hc : lowerStr k = lower ∧ usable v = true
    · exact ⟨v, by simp [ciScan, if_pos hc]⟩
    · have hstep : ciScan ((k, v) :: rest) lower = ciScan rest lower := by
        simp [ciScan, if_neg hc]
      rw [hstep]
      rcases List.mem_cons.mp hmem with heq | hmem'
      · exfalso
        apply hc
        subst heq
        exact ⟨hl, hu⟩
      · exact ih hmem'

/-- When no bag entry matches `key` case-insensitively with a usable
value, `getField` on `key :: rest` ignores `key`. -/
theorem getField_cons_of_no_match {attrs : Bag} {key : String}
    (hno : ∀ kv, kv ∈ attrs → lowerStr kv.1 = (lowerStr key) → usable kv.2 = false)
    (rest : List String) (fallback : Value) :
    getField attrs (key :: rest) fallback = getField attrs rest fallback := by
  have hcs : ciScan attrs (lowerStr key) = none := by
    cases hcs : ciScan attrs (lowerStr key) with
    | none => rfl
    | some w =>
      obtain ⟨kw, hkmem, hkci, hkval, hkw⟩ := ciScan_mem hcs
      have hfalse := hno kw hkmem hkci
      rw [hkval, hkw] at hfalse
      cases hfalse
  cases hb : bagGet attrs key with
  | none => simp [getField, hb, hcs]
  | some v =>
    have hv : usable v = false := hno (key, v) (bagGet_mem hb) rfl
    simp [getField, hb, hv, hcs]

/-- A candidate key "matches in the bag" in the sense of claim C2: some
bag entry's key equals it exactly or case-insensitively, and that
entry's value is neither null nor the empty string. -/
def candMatches (attrs : Bag) (key : String) : Bool :=
  attrs.any fun kv => (kv.1 = key || lowerStr kv.1 = (lowerStr key)) && usable kv.2

theorem candMatches_iff {attrs : Bag} {key : String} :
    candMatches attrs key = true ↔
      ∃ kv, kv ∈ attrs ∧ (kv.1 = key ∨ lowerStr kv.1 = (lowerStr key)) ∧ usable kv.2 = true := by
  unfold candMatches
  rw [List.any_eq_true]
  constructor
  · rintro ⟨kv, hmem, hkv⟩
    rw [Bool.and_eq_true, Bool.or_eq_true, decide_eq_true_eq, decide_eq_true_eq] at hkv
    exact ⟨kv, hmem, hkv.1, hkv.2⟩
  · rintro ⟨kv, hmem, hmatch, hu⟩
    refine ⟨kv, hmem, ?_⟩
    rw [Bool.and_eq_true, Bool.or_eq_true, decide_eq_true_eq, decide_eq_true_eq]
    exact ⟨hmatch, hu⟩

/-- The resolver behaviour claim C2 describes, proved of `getField` by
induction over the candidate list. -/
theorem getField_first_matching_candidate (attrs : Bag) (keys : List String) (fallback : Value) :
    (keys.find? (candMatches attrs) = none ∧ getField attrs keys fallback = fallback)
    ∨ (∃ key, keys.find? (candMatches attrs) = some key ∧
        ∃ kv, kv ∈ attrs ∧ (kv.1 = key ∨ lowerStr kv.1 = (lowerStr key)) ∧
          usable kv.2 = true ∧ getField attrs keys fallback = kv.2) := by
  induction keys with
  | nil => exact Or.inl ⟨rfl, rfl⟩
  | cons key rest ih =>
    by_cases h : candMatches attrs key = true
    · right
      refine ⟨key, List.find?_cons_of_pos _ h, ?_⟩
      obtain ⟨kv, hmem, hmatch, hu⟩ := candMatches_iff.mp h
      have hci : lowerStr kv.1 = (lowerStr key) := by
        rcases hmatch with h1 | h2
        · rw [h1]
        · exact h2
      cases hb : bagGet attrs key with
      | some v =>
        by_cases hv : usable v = true
        · exact ⟨(key, v), bagGet_mem hb, Or.inl rfl, hv, by simp [getField, hb, hv]⟩
        · obtain ⟨w, hw⟩ := ciScan_isSome_of_mem hmem hci hu
          obtain ⟨kw, hkmem, hkci, hkval, hkw⟩ := ciScan_mem hw
          refine ⟨kw, hkmem, Or.inr hkci, ?_, ?_⟩
          · rw [hkval]; exact hkw
          · rw [hkval]; simp [getField, hb, hv, hw]
      | none =>
        obtain ⟨w, hw⟩ := ciScan_isSome_of_mem hmem hci hu
        obtain ⟨kw, hkmem, hkci, hkval, hkw⟩ := ciScan_mem hw
        refine ⟨kw, hkmem, Or.inr hkci, ?_, ?_⟩
        · rw [hkval]; exact hkw
        · rw [hkval]; simp [getField, hb, hw]
    · have hno : ∀ kv, kv ∈ attrs → lowerStr kv.1 = (lowerStr key) → usable kv.2 = false := by
        intro kv hmem hci
        by_contra hc
        exact h (candMatches_iff.mpr ⟨kv, hmem, Or.inr hci, by simpa using hc⟩)
      rw [List.find?_cons_of_neg _ h, getField_cons_of_no_match hno rest fallback]
      exact ih

theorem resolves_mem {attrs : Bag} {keys : List String} {v : Value}
    (h : resolves attrs keys = some v) :
    ∃ kv, kv ∈ attrs ∧ kv.2 = v ∧ usable v = true := by
  induction keys with
  | nil => simp [resolves] at h
  | cons key rest ih =>
    cases hb : bagGet attrs key with
    | some w =>
      simp only [resolves, hb] at h
      by_cases hu : usable w = true
      · rw [if_pos hu] at h
        injection h with h
        subst h
        exact ⟨(key, w), bagGet_mem hb, rfl, hu⟩
      · rw [if_neg hu] at h
        cases hc : ciScan attrs (lowerStr key) with
        | some u =>
          simp only [hc] at h
          injection h with h
          subst h
          obtain ⟨kv, hmem, _, h2, h3⟩ := ciScan_mem hc
          exact ⟨kv, hmem, h2, h3⟩
        | none =>
          simp only [hc] at h
          exact ih h
    | none =>
      simp only [resolves, hb] at h
      cases hc : ciScan attrs (lowerStr key) with
      | some u =>
        simp only [hc] at h
        injection h with h
        subst h
        obtain ⟨kv, hmem, _, h2, h3⟩ := ciScan_mem hc
        exact ⟨kv, hmem, h2, h3⟩
      | none =>
        simp only [hc] at h
        exact ih h

/-- The value `v` was taken from the bag: some entry holds exactly `v`,
and `v` passes the usability test. -/
def fromBag (attrs : Bag) (v : Value) : Prop :=
  ∃ kv, kv ∈ attrs ∧ kv.2 = v ∧ usable v = true

theorem getField_default_or_fromBag (attrs : Bag) (keys : List String) (fallback : Value) :
    getField attrs keys fallback = fallback ∨ fromBag attrs (getField attrs keys fallback) := by
  rw [getField_eq_resolves]
  cases hr : resolves attrs keys with
  | none => exact Or.inl rfl
  | some v =>
    right
    obtain ⟨kv, hmem, hv, hu⟩ := resolves_mem hr
    exact ⟨kv, hmem, by simpa using hv, by simpa using hu⟩

/-- C2: for every attribute bag, candidate list and fallback, `getField`
returns a usable (non-null, non-undefined, non-empty-string) value of a
bag entry whose key matches — exactly or case-insensitively — the first
candidate (in list order) for which such a match exists, and returns the
fallback when no candidate has such a match; in particular, for
attributes `{ownname: "Smith"}` and candidates
`["OWNER1","OWNER","OWNNAME"]` it returns `"Smith"`. -/
theorem claim_C2_getField_first_candidate :
    (∀ (attrs : Bag) (keys : List String) (fallback : Value),
      (keys.find? (candMatches attrs) = none ∧ getField attrs keys fallback = fallback)
      ∨ (∃ key, keys.find? (candMatches attrs) = some key ∧
          ∃ kv, kv ∈ attrs ∧ (kv.1 = key ∨ lowerStr kv.1 = (lowerStr key)) ∧
            usable kv.2 = true ∧ getField attrs keys fallback = kv.2))
    ∧ getField [("ownname", .str "Smith")] ["OWNER1", "OWNER", "OWNNAME"] .null
        = .str "Smith" :=
  ⟨getField_first_matching_candidate, by decide⟩

/-- C3: `normalizeParcel` is total — it returns a fully-populated record
(absence is represented by the explicit `null`/`"N/A"`/default
sentinels, never by an undefined field) in which every bag-derived field
is either the documented default or a usable value taken from the bag;
on the empty bag `{}` it returns exactly the documented default
Property. -/
theorem claim_C3_normalizeParcel_total :
    (∀ attrs : Bag,
      ((normalizeParcel attrs).owner = .str "Unknown Owner"
        ∨ fromBag attrs (normalizeParcel attrs).owner)
      ∧ ((normalizeParcel attrs).situs = .str "Address not available"
        ∨ fromBag attrs (normalizeParcel attrs).situs)
      ∧ ((normalizeParcel attrs).city = .str ""
        ∨ fromBag attrs (normalizeParcel attrs).city)
      ∧ ((normalizeParcel attrs).state = .str "OR"
        ∨ fromBag attrs (normalizeParcel attrs).state)
      ∧ ((normalizeParcel attrs).zip = .str ""
        ∨ fromBag attrs (normalizeParcel attrs).zip)
      ∧ ((normalizeParcel attrs).assessed = .null
        ∨ fromBag attrs (normalizeParcel attrs).assessed)
      ∧ ((normalizeParcel attrs).land = .null
        ∨ fromBag attrs (normalizeParcel attrs).land)
      ∧ ((normalizeParcel attrs).improv = .null
        ∨ fromBag attrs (normalizeParcel attrs).improv)
      ∧ ((normalizeParcel attrs).acres = .null
        ∨ fromBag attrs (normalizeParcel attrs).acres)
      ∧ ((normalizeParcel attrs).zoning = .str "N/A"
        ∨ fromBag attrs (normalizeParcel attrs).zoning)
      ∧ ((normalizeParcel attrs).yearBuilt = .str "N/A"
        ∨ fromBag attrs (normalizeParcel attrs).yearBuilt)
      ∧ ((normalizeParcel attrs).parcelId = .str "N/A"
        ∨ fromBag attrs (normalizeParcel attrs).parcelId)
      ∧ ((normalizeParcel attrs).taxLot = (normalizeParcel attrs).parcelId
        ∨ fromBag attrs (normalizeParcel attrs).taxLot)
      ∧ ((normalizeParcel attrs).propType = .str "N/A"
        ∨ fromBag attrs (normalizeParcel attrs).propType)
      ∧ ((normalizeParcel attrs).township = .str ""
        ∨ fromBag attrs (normalizeParcel attrs).township)
      ∧ ((normalizeParcel attrs).range = .str ""
        ∨ fromBag attrs (normalizeParcel attrs).range)
      ∧ ((normalizeParcel attrs).«section» = .str ""
        ∨ fromBag attrs (normalizeParcel attrs).«section»))
    ∧ normalizeParcel [] =
        { uniqueKey := "n/a|address not available|unknown owner"
          owner := .str "Unknown Owner"
          situs := .str "Address not available"
          city := .str ""
          state := .str "OR"
          zip := .str ""
          fullAddress := "Address not available | OR"
          assessed := .null
          land := .null
          improv := .null
          acres := .null
          lotSizeLabel := "N/A"
          zoning := .str "N/A"
          yearBuilt := .str "N/A"
          parcelId := .str "N/A"
          taxLot := .str "N/A"
          propType := .str "N/A"
          township := .str ""
          range := .str ""
          «section» := .str ""
          trs := "N/A"
          savedAt := none
          rawAttrs := [] } := by
  constructor
  · intro attrs
    exact ⟨getField_default_or_fromBag attrs FIELD_MAP.owner _,
      getField_default_or_fromBag attrs FIELD_MAP.situs _,
      getField_default_or_fromBag attrs FIELD_MAP.city _,
      getField_default_or_fromBag attrs FIELD_MAP.state _,
      getField_default_or_fromBag attrs FIELD_MAP.zip _,
      getField_default_or_fromBag attrs FIELD_MAP.assessed _,
      getField_default_or_fromBag attrs FIELD_MAP.land _,
      getField_default_or_fromBag attrs FIELD_MAP.improv _,
      getField_default_or_fromBag attrs FIELD_MAP.acres _,
      getField_default_or_fromBag attrs FIELD_MAP.zoning _,
      getField_default_or_fromBag attrs FIELD_MAP.yearBuilt _,
      getField_default_or_fromBag attrs FIELD_MAP.parcelId _,
      getField_default_or_fromBag attrs FIELD_MAP.taxLot _,
      getField_default_or_fromBag attrs FIELD_MAP.propType _,
      getField_default_or_fromBag attrs FIELD_MAP.township _,
      getField_default_or_fromBag attrs FIELD_MAP.range _,
      getField_default_or_fromBag attrs FIELD_MAP.«section» _⟩
  · rfl

/-!
Helper lemmas about the endpoint sequencer.
-/

theorem taxlotLoop_cons_fail {fetch : String → FetchOutcome} {qs : String} {e : String}
    (he : attemptFails (fetch (taxlotUrl e qs)) = true) (rest : List String) :
    taxlotLoop fetch qs (e :: rest) =
      ⟨(taxlotLoop fetch qs rest).result,
        attemptReason e (fetch (taxlotUrl e qs)) :: (taxlotLoop fetch qs rest).errors,
        e :: (taxlotLoop fetch qs rest).attempted⟩ := by
  cases hf : fetch (taxlotUrl e qs) with
  | thrown a m => simp [taxlotLoop, hf, attemptReason]
  | http s b =>
    rw [hf] at he
    by_cases hok : httpOk s = true
    · cases hfeats : b.features with
      | none => simp [taxlotLoop, hf, hok, hfeats, attemptReason]
      | some l =>
        cases l with
        | nil => simp [taxlotLoop, hf, hok, hfeats, attemptReason]
        | cons f fs => simp [attemptFails, hok, hfeats] at he
    · simp [taxlotLoop, hf, hok, attemptReason]

theorem taxlotLoop_cons_success {fetch : String → FetchOutcome} {qs : String} {e : String}
    {s : Nat} {b : QueryResponse} {f : Feature} {fs : List Feature}
    (hf : fetch (taxlotUrl e qs) = .http s b) (hok : httpOk s = true)
    (hfeat : b.features = some (f :: fs)) (rest : List String) :
    taxlotLoop fetch qs (e :: rest) =
      ⟨some ⟨normalizeParcel ((f.attributes.orElse fun _ => f.properties).getD []),
        f.geometry⟩, [], [e]⟩ := by
  simp [taxlotLoop, hf, hok, hfeat]

theorem taxlotLoop_exhausted (fetch : String → FetchOutcome) (qs : String)
    (endpoints : List String)
    (h : ∀ e ∈ endpoints, attemptFails (fetch (taxlotUrl e qs)) = true) :
    taxlotLoop fetch qs endpoints =
      ⟨none, endpoints.map (fun e => attemptReason e (fetch (taxlotUrl e qs))), endpoints⟩ := by
  induction endpoints with
  | nil => rfl
  | cons e rest ih =>
    rw [taxlotLoop_cons_fail (h e (List.mem_cons_self _ _)) rest,
      ih (fun x hx => h x (List.mem_cons_of_mem _ hx))]
    simp

/-- C4: for endpoints `[A, B, C]` where the attempt on A fails (throws,
HTTP error, or no features) and the attempt on B returns usable data,
the sequencer returns B's normalized result, records only A's failure,
and the loop body never runs for C: the attempted prefix is exactly
`[A, B]`. -/
theorem claim_C4_sequencer_short_circuits (fetch : String → FetchOutcome) (qs : String)
    (A B C : String)
    (hA : attemptFails (fetch (taxlotUrl A qs)) = true)
    (sB : Nat) (bodyB : QueryResponse) (featB : Feature) (restB : List Feature)
    (hB : fetch (taxlotUrl B qs) = .http sB bodyB)
    (hok : httpOk sB = true)
    (hfeat : bodyB.features = some (featB :: restB)) :
    taxlotLoop fetch qs [A, B, C] =
      ⟨some ⟨normalizeParcel ((featB.attributes.orElse fun _ => featB.properties).getD []),
          featB.geometry⟩,
        [attemptReason A (fetch (taxlotUrl A qs))], [A, B]⟩ := by
  rw [taxlotLoop_cons_fail hA [B, C], taxlotLoop_cons_success hB hok hfeat [C]]

/-- C5: when every endpoint's attempt fails — throws or times out, has a
non-success HTTP status, or returns zero features — the sequencer
returns no result as a value (no exception propagates), and the
accumulated failure list has exactly one `"<endpoint>: <reason>"` entry
per attempted endpoint, in endpoint-list order. -/
theorem claim_C5_sequencer_exhaustion (fetch : String → FetchOutcome) (qs : String)
    (endpoints : List String)
    (h : ∀ e ∈ endpoints, attemptFails (fetch (taxlotUrl e qs)) = true) :
    (taxlotLoop fetch qs endpoints).result = none
    ∧ (taxlotLoop fetch qs endpoints).errors
        = endpoints.map (fun e => attemptReason e (fetch (taxlotUrl e qs)))
    ∧ (taxlotLoop fetch qs endpoints).errors.length = endpoints.length := by
  rw [taxlotLoop_exhausted fetch qs endpoints h]
  exact ⟨rfl, rfl, by simp⟩

/-- A sample environment in which endpoint A throws with an abort, B
answers HTTP 404, and every other URL answers 200 with no features. -/
def failFetch : String → FetchOutcome := fun url =>
  if url = taxlotUrl "A" "q" then .thrown true ""
  else if url = taxlotUrl "B" "q" then .http 404 ⟨none⟩
  else .http 200 ⟨some []⟩

theorem claim_C5_witness :
    (∀ e ∈ ["A", "B", "C"], attemptFails (failFetch (taxlotUrl e "q")) = true)
    ∧ (taxlotLoop failFetch "q" ["A", "B", "C"]).result = none
    ∧ (taxlotLoop failFetch "q" ["A", "B", "C"]).errors
        = ["A: timeout", "B: HTTP 404", "C: no features at this location"] := by
  refine ⟨by decide, (claim_C5_sequencer_exhaustion failFetch "q" _ (by decide)).1, ?_⟩
  rw [(claim_C5_sequencer_exhaustion failFetch "q" ["A", "B", "C"] (by decide)).2.1]
  decide

/-- A sample feature as a taxlot service would return it: an attribute
bag, no `properties`, and one polygon ring. -/
def sampleFeature : Feature :=
  ⟨some [("OWNER1", .str "Jane")], none, some ⟨some [[(1, 2), (3, 4)]]⟩⟩

/-- A sample environment in which endpoint A throws, B succeeds with
`sampleFeature`, and any further endpoint would throw. -/
def shortCircuitFetch : String → FetchOutcome := fun url =>
  if url = taxlotUrl "A" "q" then .thrown false "boom"
  else if url = taxlotUrl "B" "q" then .http 200 ⟨some [sampleFeature]⟩
  else .thrown false "unreached"

theorem claim_C4_witness :
    attemptFails (shortCircuitFetch (taxlotUrl "A" "q")) = true
    ∧ shortCircuitFetch (taxlotUrl "B" "q") = .http 200 ⟨some [sampleFeature]⟩
    ∧ (taxlotLoop shortCircuitFetch "q" ["A", "B", "C"]).attempted = ["A", "B"]
    ∧ (taxlotLoop shortCircuitFetch "q" ["A", "B", "C"]).errors = ["A: boom"] := by
  have h := claim_C4_sequencer_short_circuits shortCircuitFetch "q" "A" "B" "C" (by decide)
    200 ⟨some [sampleFeature]⟩ sampleFeature [] (by decide) (by decide) (by decide)
  exact ⟨by decide, by decide, by rw [h], by rw [h]; decide⟩

/-!
Failure predicates and lemmas for the reverse-geocode and search stages.
-/

/-- A reverse-geocode outcome yielding no address: thrown, non-success
status, or a body without an `address` object. -/
def revOutcomeFails : RevOutcome → Bool
  | .thrown _ _ => true
  | .http status address => !httpOk status || address.isNone

/-- The whole reverse-geocode stage yields nothing: Esri fails, and the
Oregon fallback is unconfigured or fails too. -/
def revEnvFails (env : RevEnv) : Bool :=
  revOutcomeFails env.esri && (!env.oregonConfigured || revOutcomeFails env.oregon)

theorem reverseOregon_none {env : RevEnv} (lat lng : Rat) (errs : List String)
    (h : env.oregonConfigured = true → revOutcomeFails env.oregon = true) :
    (reverseOregon env lat lng errs).1 = none := by
  unfold reverseOregon
  by_cases hc : env.oregonConfigured = true
  · rw [if_pos hc]
    have h2 := h hc
    cases hg : env.oregon with
    | thrown a m => simp
    | http s addr =>
      rw [hg] at h2
      simp only [revOutcomeFails] at h2
      by_cases hok : httpOk s = true
      · have haddr : addr = none := by
          rw [hok] at h2
          simpa [Option.isNone_iff_eq_none] using h2
        simp [hok, haddr]
      · simp [hok]
  · rw [if_neg hc]

theorem tryReverseGeocode_none (env : RevEnv) (lat lng : Rat)
    (h : revEnvFails env = true) :
    (tryReverseGeocode env lat lng).1 = none := by
  unfold revEnvFails at h
  rw [Bool.and_eq_true] at h
  obtain ⟨h1, h2⟩ := h
  have hOr : env.oregonConfigured = true → revOutcomeFails env.oregon = true := by
    intro hc
    rw [hc] at h2
    simpa using h2
  cases hg : env.esri with
  | thrown a m =>
    simp only [tryReverseGeocode, hg]
    exact reverseOregon_none lat lng _ hOr
  | http s addr =>
    rw [hg] at h1
    simp only [revOutcomeFails] at h1
    simp only [tryReverseGeocode, hg]
    by_cases hok : httpOk s = true
    · have haddr : addr = none := by
        rw [hok] at h1
        simpa [Option.isNone_iff_eq_none] using h1
      rw [if_pos hok, haddr]
      exact reverseOregon_none lat lng _ hOr
    · rw [if_neg hok]
      exact reverseOregon_none lat lng _ hOr

/-- C1 (amended): for every coordinate and every environment, provided
no successful taxlot response carries a polygon geometry with an empty
`rings` array — the one uncaught-failure path, exhibited concretely by
the counterexample theorem — `identifyParcelAt` raises nothing and
yields a displayable Property view; in particular, whenever every
taxlot attempt fails (throws, HTTP error, or no features) and the
reverse geocoders yield no address, it returns exactly the
bare-coordinate placeholder, whose `parcelId` is `"N/A"` and whose full
address string is `"Coordinates: <lat to 6 decimals>, <lng to 6
decimals>"`. -/
theorem claim_C1_identify_placeholder (fetch : String → FetchOutcome) (rev : RevEnv)
    (lat lng : Rat) :
    ((∀ (r : TaxlotResult) (g : Geometry),
        (tryIdentifyFromTaxlots fetch lat lng).result = some r →
        r.geometry = some g → g.rings ≠ some []) →
      ∃ view : IdentifyView, identifyParcelAt fetch rev lat lng = .ok view)
    ∧ ((∀ e ∈ TAXLOT_ENDPOINTS,
        attemptFails (fetch (taxlotUrl e (taxlotQueryString lat lng))) = true) →
      revEnvFails rev = true →
      identifyParcelAt fetch rev lat lng = .ok ⟨buildNAProperty lat lng, true, none⟩
      ∧ (buildNAProperty lat lng).parcelId = .str "N/A"
      ∧ (buildNAProperty lat lng).fullAddress
          = "Coordinates: " ++ (ratToFixed 6 lat ++ ", " ++ ratToFixed 6 lng)) := by
  constructor
  · intro hno
    unfold identifyParcelAt
    cases hres : (tryIdentifyFromTaxlots fetch lat lng).result with
    | none =>
      cases hrev : (tryReverseGeocode rev lat lng).1 with
      | some p => exact ⟨⟨p, true, none⟩, rfl⟩
      | none => exact ⟨⟨buildNAProperty lat lng, true, none⟩, rfl⟩
    | some r =>
      cases hg : r.geometry with
      | none => exact ⟨⟨r.property, false, none⟩, by simp [highlightCoords, hg]⟩
      | some g =>
        cases hr : g.rings with
        | none => exact ⟨⟨r.property, false, none⟩, by simp [highlightCoords, hg, hr]⟩
        | some l =>
          cases l with
          | nil => exact absurd hr (hno r g hres hg)
          | cons ring rs =>
            exact ⟨⟨r.property, false, some (ring.map fun xy => (xy.2, xy.1))⟩,
              by simp [highlightCoords, hg, hr]⟩
  · intro hT hR
    have hseq : (tryIdentifyFromTaxlots fetch lat lng).result = none := by
      unfold tryIdentifyFromTaxlots
      rw [taxlotLoop_exhausted fetch (taxlotQueryString lat lng) TAXLOT_ENDPOINTS hT]
    have hrev := tryReverseGeocode_none rev lat lng hR
    refine ⟨?_, rfl, rfl⟩
    unfold identifyParcelAt
    simp only [hseq, hrev]

/-- The fetch environment of the C1 counterexample: the taxlot service
answers success with one feature whose polygon geometry is
`{rings: []}`. -/
def emptyRingsFetch : String → FetchOutcome := fun _ =>
  .http 200 ⟨some [⟨some [], none, some ⟨some []⟩⟩]⟩

/-- A reverse-geocode environment with no address available anywhere. -/
def noRevEnv : RevEnv := ⟨.http 200 none, false, .http 200 none⟩

/-- C1 counterexample: the pipeline is not failure-free for every
response — on a successful taxlot response whose polygon geometry is
`{rings: []}`, the truthiness check passes (an empty JS array is
truthy), `rings[0]` is `undefined`, and the `.map` call raises an
uncaught TypeError that escapes `identifyParcelAt`. -/
theorem claim_C1_counterexample :
    identifyParcelAt emptyRingsFetch noRevEnv 0 0
      = .error "TypeError: Cannot read properties of undefined (reading 'map')" := by
  rfl

/-- The all-fail fetch environment of the C1 witness. -/
def downFetch : String → FetchOutcome := fun _ => .thrown true ""

theorem claim_C1_witness :
    (∀ e ∈ TAXLOT_ENDPOINTS,
      attemptFails (downFetch (taxlotUrl e
        (taxlotQueryString (Rat.divInt 44123456 1000000)
          (Rat.divInt (-123654321) 1000000)))) = true)
    ∧ revEnvFails noRevEnv = true
    ∧ (identifyParcelAt downFetch noRevEnv
        (Rat.divInt 44123456 1000000) (Rat.divInt (-123654321) 1000000)).toOption.isSome
      = true
    ∧ identifyParcelAt downFetch noRevEnv
        (Rat.divInt 44123456 1000000) (Rat.divInt (-123654321) 1000000)
      = .ok ⟨buildNAProperty (Rat.divInt 44123456 1000000)
          (Rat.divInt (-123654321) 1000000), true, none⟩
    ∧ (buildNAProperty (Rat.divInt 44123456 1000000)
        (Rat.divInt (-123654321) 1000000)).fullAddress
      = "Coordinates: 44.123456, -123.654321" := by
  refine ⟨by decide, by decide, ?_, ?_, by decide⟩
  · obtain ⟨v, hv⟩ := (claim_C1_identify_placeholder downFetch noRevEnv
      (Rat.divInt 44123456 1000000) (Rat.divInt (-123654321) 1000000)).1 (by
        intro r g hres hg
        rw [(by decide : (tryIdentifyFromTaxlots downFetch
          (Rat.divInt 44123456 1000000)
          (Rat.divInt (-123654321) 1000000)).result = none)] at hres
        cases hres)
    rw [hv]
    rfl
  · exact ((claim_C1_identify_placeholder downFetch noRevEnv _ _).2
      (by decide) (by decide)).1

/-- C6: when the taxlot strategy succeeds and its geometry carries at
least one ring, the highlighted polygon's coordinates are that first
ring's `[x, y]` pairs with the axes swapped to `[y, x]` (latitude
first); on a two-point ring `[[x1,y1],[x2,y2]]` the highlight is exactly
`[[y1,x1],[y2,x2]]`. -/
theorem claim_C6_geometry_axis_swap :
    (∀ (fetch : String → FetchOutcome) (rev : RevEnv) (lat lng : Rat)
      (p : Property) (g : Geometry) (ring : List (Rat × Rat))
      (rs : List (List (Rat × Rat))),
      (tryIdentifyFromTaxlots fetch lat lng).result = some ⟨p, some g⟩ →
      g.rings = some (ring :: rs) →
      identifyParcelAt fetch rev lat lng
        = .ok ⟨p, false, some (ring.map fun xy => (xy.2, xy.1))⟩)
    ∧ (∀ x1 y1 x2 y2 : Rat,
      highlightCoords (some ⟨some [[(x1, y1), (x2, y2)]]⟩)
        = .ok (some [(y1, x1), (y2, x2)])) := by
  constructor
  · intro fetch rev lat lng p g ring rs hres hrings
    unfold identifyParcelAt
    simp only [hres, highlightCoords, hrings]
  · intro x1 y1 x2 y2
    rfl

/-- A fetch environment in which every taxlot endpoint succeeds with
`sampleFeature`. -/
def goodFetch : String → FetchOutcome := fun _ => .http 200 ⟨some [sampleFeature]⟩

theorem claim_C6_witness :
    (tryIdentifyFromTaxlots goodFetch 1 1).result
      = some ⟨normalizeParcel [("OWNER1", Value.str "Jane")], some ⟨some [[(1, 2), (3, 4)]]⟩⟩
    ∧ identifyParcelAt goodFetch noRevEnv 1 1
      = .ok ⟨normalizeParcel [("OWNER1", Value.str "Jane")], false, some [(2, 1), (4, 3)]⟩ := by
  refine ⟨by decide, ?_⟩
  have h := claim_C6_geometry_axis_swap.1 goodFetch noRevEnv 1 1
    (normalizeParcel [("OWNER1", Value.str "Jane")]) ⟨some [[(1, 2), (3, 4)]]⟩
    [(1, 2), (3, 4)] [] (by decide) (by decide)
  rw [h]
  rfl

/-- C7: saving a Property whose uniqueness key already occurs in the
saved collection is rejected: the call reports "Property already in your
list" as an error, returns the saved collection unchanged, and writes
nothing to durable storage. -/
theorem claim_C7_save_dedup (p : Property) (saved : List SavedItem) (now : Nat) (iso : String)
    (h : ∃ q ∈ saved, q.property.uniqueKey = p.uniqueKey) :
    saveCurrentProperty (some p) saved now iso
      = ⟨saved, "Property already in your list", "error", false⟩ := by
  have hs : isCurrentSaved (some p) saved = true := by
    rcases h with ⟨q, hq, hkey⟩
    simp only [isCurrentSaved, List.any_eq_true, decide_eq_true_eq]
    exact ⟨q, hq, hkey⟩
  simp [saveCurrentProperty, hs]

/-- A one-element saved list holding the default-normalized Property. -/
def savedSample : List SavedItem := [⟨normalizeParcel [], 1⟩]

theorem claim_C7_witness :
    (∃ q ∈ savedSample, q.property.uniqueKey = (normalizeParcel []).uniqueKey)
    ∧ saveCurrentProperty (some (normalizeParcel [])) savedSample 5 "2026-01-01T00:00:00.000Z"
      = ⟨savedSample, "Property already in your list", "error", false⟩ :=
  ⟨⟨⟨normalizeParcel [], 1⟩, by simp [savedSample], rfl⟩,
    claim_C7_save_dedup _ _ _ _ ⟨⟨normalizeParcel [], 1⟩, by simp [savedSample], rfl⟩⟩

/-- A geocoder outcome yielding no candidates: thrown, non-success
status, or zero candidates in the body. -/
def geoOutcomeFails : GeoOutcome → Bool
  | .thrown _ _ => true
  | .http status candidates => !httpOk status || (normalizeCandidates candidates).isEmpty

theorem searchOregon_nil {env : SearchEnv} (errs : List String)
    (h : env.oregonConfigured = true → geoOutcomeFails env.oregon = true) :
    (searchOregon env errs).1 = [] := by
  unfold searchOregon
  by_cases hc : env.oregonConfigured = true
  · rw [if_pos hc]
    have h2 := h hc
    cases hg : env.oregon with
    | thrown a m => simp
    | http s c =>
      rw [hg] at h2
      simp only [geoOutcomeFails] at h2
      by_cases hok : httpOk s = true
      · have hempty : normalizeCandidates c = [] := by
          rw [hok] at h2
          simpa [List.isEmpty_iff] using h2
        simp [hok, hempty]
      · simp [hok]
  · rw [if_neg hc]

/-- C8: when no geocoder endpoint yields a candidate — each throws,
returns a non-success status, or returns zero candidates — the search
pipeline returns the empty list as an ordinary value; no exception
escapes the exhausted-geocoders path. -/
theorem claim_C8_search_exhausted_empty (env : SearchEnv)
    (he : geoOutcomeFails env.esri = true)
    (ho : env.oregonConfigured = true → geoOutcomeFails env.oregon = true) :
    (searchAddresses env).1 = [] := by
  cases hg : env.esri with
  | thrown a m =>
    simp only [searchAddresses, hg]
    exact searchOregon_nil _ ho
  | http s c =>
    rw [hg] at he
    simp only [geoOutcomeFails] at he
    simp only [searchAddresses, hg]
    by_cases hok : httpOk s = true
    · have hempty : normalizeCandidates c = [] := by
        rw [hok] at he
        simpa [List.isEmpty_iff] using he
      rw [if_pos hok, hempty]
      exact searchOregon_nil _ ho
    · rw [if_neg hok]
      exact searchOregon_nil _ ho

/-- A search environment in which the Esri geocoder throws and the
configured Oregon geocoder answers HTTP 500. -/
def deadSearchEnv : SearchEnv := ⟨.thrown false "socket hang up", true, .http 500 none⟩

theorem claim_C8_witness :
    geoOutcomeFails deadSearchEnv.esri = true
    ∧ (deadSearchEnv.oregonConfigured = true → geoOutcomeFails deadSearchEnv.oregon = true)
    ∧ (searchAddresses deadSearchEnv).1 = [] :=
  ⟨by decide, by decide,
    claim_C8_search_exhausted_empty deadSearchEnv (by decide) (by decide)⟩

/-- C9 counterexample: with `ACRES` present and equal to the number 0,
the acreage candidate resolves — the value is present in the bag — yet
the lot-size label is `"N/A"`, refuting ""N/A" only when acreage is
absent" (the code tests JS truthiness, and the number 0 is falsy). -/
theorem claim_C9_counterexample :
    resolves [("ACRES", Value.num 0)] FIELD_MAP.acres = some (Value.num 0)
    ∧ (normalizeParcel [("ACRES", Value.num 0)]).lotSizeLabel = "N/A" :=
  ⟨by decide, by decide⟩

/-- C9 (amended): the lot-size label is the resolved acreage formatted
to two decimals with the `" ac"` suffix whenever that value is truthy —
in particular whenever it is a nonzero number — and `"N/A"` when the
acreage is absent, but also when it resolves to the falsy number 0. -/
theorem claim_C9_lot_size_label (attrs : Bag) :
    (∀ q : Rat, getField attrs FIELD_MAP.acres .null = .num q → q ≠ 0 →
      (normalizeParcel attrs).lotSizeLabel = ratToFixed 2 q ++ " ac")
    ∧ (resolves attrs FIELD_MAP.acres = none →
      (normalizeParcel attrs).lotSizeLabel = "N/A")
    ∧ (getField attrs FIELD_MAP.acres .null = .num 0 →
      (normalizeParcel attrs).lotSizeLabel = "N/A") := by
  have hl : (normalizeParcel attrs).lotSizeLabel
      = (if truthy (getField attrs FIELD_MAP.acres .null) then
          jsToFixed 2 (getField attrs FIELD_MAP.acres .null) ++ " ac" else "N/A") := rfl
  refine ⟨?_, ?_, ?_⟩
  · intro q hq hq0
    rw [hl, hq]
    rw [if_pos (by simp [truthy, hq0])]
    rfl
  · intro h
    have hnull : getField attrs FIELD_MAP.acres .null = .null := by
      rw [getField_eq_resolves, h]
      rfl
    rw [hl, hnull]
    rfl
  · intro h
    rw [hl, h]
    rfl

theorem claim_C9_witness :
    getField [("ACRES", Value.num (Rat.divInt 3 2))] FIELD_MAP.acres .null
      = .num (Rat.divInt 3 2)
    ∧ (normalizeParcel [("ACRES", Value.num (Rat.divInt 3 2))]).lotSizeLabel = "1.50 ac" := by
  refine ⟨by decide, ?_⟩
  rw [(claim_C9_lot_size_label [("ACRES", Value.num (Rat.divInt 3 2))]).1
    (Rat.divInt 3 2) (by decide) (by decide)]
  decide

/-- C10: the tax-lot field falls back to the already-resolved parcel-id:
whenever none of the tax-lot candidates resolve, the returned Property's
`taxLot` equals its `parcelId`, and when the parcel-id candidates are
also all unresolved both equal exactly `"N/A"`. -/
theorem claim_C10_taxLot_falls_back_to_parcelId (attrs : Bag)
    (h : resolves attrs FIELD_MAP.taxLot = none) :
    (normalizeParcel attrs).taxLot = (normalizeParcel attrs).parcelId
    ∧ (resolves attrs FIELD_MAP.parcelId = none →
        (normalizeParcel attrs).taxLot = .str "N/A"
        ∧ (normalizeParcel attrs).parcelId = .str "N/A") := by
  have hp : (normalizeParcel attrs).parcelId
      = (resolves attrs FIELD_MAP.parcelId).getD (.str "N/A") :=
    getField_eq_resolves attrs FIELD_MAP.parcelId (.str "N/A")
  have ht : (normalizeParcel attrs).taxLot
      = (resolves attrs FIELD_MAP.taxLot).getD ((normalizeParcel attrs).parcelId) :=
    getField_eq_resolves attrs FIELD_MAP.taxLot (getField attrs FIELD_MAP.parcelId (.str "N/A"))
  have htp : (normalizeParcel attrs).taxLot = (normalizeParcel attrs).parcelId := by
    rw [ht, h]
    rfl
  refine ⟨htp, fun h2 => ?_⟩
  have hpn : (normalizeParcel attrs).parcelId = .str "N/A" := by
    rw [hp, h2]
    rfl
  exact ⟨htp.trans hpn, hpn⟩

theorem claim_C10_witness :
    resolves [("PARCEL", Value.str "12-34")] FIELD_MAP.taxLot = none
    ∧ (normalizeParcel [("PARCEL", Value.str "12-34")]).taxLot
      = (normalizeParcel [("PARCEL", Value.str "12-34")]).parcelId
    ∧ (normalizeParcel [("PARCEL", Value.str "12-34")]).taxLot = .str "12-34" :=
  ⟨by decide,
    (claim_C10_taxLot_falls_back_to_parcelId [("PARCEL", Value.str "12-34")] (by decide)).1,
    by decide⟩

end LCG
